import Mathlib

/-!
Shallow embedding of the AI Story Studio orchestration core
(`App` component in the root source file, and `services/geminiService.ts`).

React `useState` holders become fields of `AppState`; each event handler
becomes a pure function from the pre-state (plus the backend outcome,
supplied as data) to the ordered list of states produced by its
`setState` calls, together with the list of prompts it hands to the
AI Backend Gateway.
-/

/-- Role of a chat message: `'user' | 'model' | 'system'` in the source. -/
inductive Role where
  | user
  | model
  | system
deriving DecidableEq, Repr

/-- A `ChatMessage`: id (opaque, modelled as `Nat`), role, content, and the
`isThinking` provisional flag (absent in the source means `false`). -/
structure ChatMessage where
  id : Nat
  role : Role
  content : String
  isThinking : Bool
deriving DecidableEq, Repr

/-- The reactive state of the `App` component: the five `useState` holders
that the orchestration core reads and writes. -/
structure AppState where
  isAiResponding : Bool
  chatHistory : List ChatMessage
  storyContent : String
  selectedText : String
  isExportingPdf : Bool
deriving DecidableEq, Repr

/-- Outcome of one handler run: `trace` is the sequence of states after each
state mutation (empty when the handler mutates nothing), `sentPrompts` the
payloads handed to the Gateway (`chat.sendMessage` / `continueWritingStream`). -/
structure RunResult where
  trace : List AppState
  sentPrompts : List String
deriving DecidableEq, Repr

/-- JavaScript `a || b` on strings: `b` when `a` is the empty string. -/
def jsOr (a b : String) : String :=
  if a = "" then b else a

/-- JavaScript `s.endsWith(suff)`, as a suffix test on the character list. -/
def jsEndsWith (s suff : String) : Bool :=
  List.isSuffixOf suff.data s.data

/-- JavaScript `s.trim()`: strip leading and trailing whitespace. -/
def jsTrim (s : String) : String :=
  ⟨((s.data.dropWhile Char.isWhitespace).reverse.dropWhile Char.isWhitespace).reverse⟩

/-- `addSystemMessage` from the source: append a system-role turn. -/
def addSystemMessage (s : AppState) (sysId : Nat) (content : String) : AppState :=
  { s with chatHistory := s.chatHistory ++ [⟨sysId, Role.system, content, false⟩] }

/-- Resolve-by-id map used in both catch/success branches of the source:
`prev.map(msg => msg.id === thinkingId ? {...msg, content, isThinking:false} : msg)`. -/
def resolveById (h : List ChatMessage) (tid : Nat) (content : String) : List ChatMessage :=
  h.map fun m => if m.id = tid then { m with content := content, isThinking := false } else m

/-- `handleSendMessage(prompt, hiddenPrompt?)`. `hiddenPrompt = ""` models the
absent optional argument (`hiddenPrompt || prompt` treats both alike).
`userId`/`thinkingId` stand for the two `nanoid()` calls; `result` is the
outcome of `chatInstance.current.sendMessage(fullPrompt)`. -/
def handleSendMessage (s0 : AppState) (prompt hiddenPrompt : String)
    (userId thinkingId : Nat) (result : Except String String) : RunResult :=
  let s1 := { s0 with isAiResponding := true }
  let s2 := { s1 with chatHistory :=
      s1.chatHistory
      ++ (if prompt ≠ "" then [⟨userId, Role.user, prompt, false⟩] else [])
      ++ [⟨thinkingId, Role.model, "Thinking...", true⟩] }
  let fullPrompt := jsOr hiddenPrompt prompt
  match result with
  | Except.ok text =>
    let s3 := { s2 with chatHistory := resolveById s2.chatHistory thinkingId text }
    let s4 := { s3 with isAiResponding := false }
    ⟨[s1, s2, s3, s4], [fullPrompt]⟩
  | Except.error msg =>
    let errorContent := "An error occurred: " ++ msg
    let s3 := { s2 with chatHistory := resolveById s2.chatHistory thinkingId errorContent }
    let s4 := { s3 with isAiResponding := false }
    ⟨[s1, s2, s3, s4], [fullPrompt]⟩

/-- The `for await` loop body of `handleContinueWriting`: the state after each
`setStoryContent(currentContent)` call, one per increment. -/
def chunkStates (s2 : AppState) (cur : String) : List String → List AppState
  | [] => []
  | c :: cs =>
    let cur2 := cur ++ c
    { s2 with storyContent := cur2 } :: chunkStates s2 cur2 cs

/-- The local `currentContent` accumulator after the whole loop. -/
def finalStreamed (cur : String) : List String → String
  | [] => cur
  | c :: cs => finalStreamed (cur ++ c) cs

/-- The boundary adjustment of `handleContinueWriting` line 106:
`storyContent.length > 0 && !storyContent.endsWith(' ') ? storyContent + ' ' : storyContent`. -/
def boundaryBase (story : String) : String :=
  if 0 < story.length && !(jsEndsWith story " ") then story ++ " " else story

/-- `handleContinueWriting`. The lazy stream's behaviour is supplied as data:
`chunks` are the increments delivered, `streamErr = some msg` means the
operation throws (at opening when `chunks = []` arises that way, or
mid-stream after `chunks`) with message `msg`. -/
def handleContinueWriting (s0 : AppState) (thinkingId : Nat)
    (chunks : List String) (streamErr : Option String) : RunResult :=
  if s0.isAiResponding then ⟨[], []⟩
  else
    let s1 := { s0 with isAiResponding := true }
    let s2 := { s1 with chatHistory :=
        s1.chatHistory ++ [⟨thinkingId, Role.model, "Continuing the story...", true⟩] }
    let base := boundaryBase s0.storyContent
    let streaming := chunkStates s2 base chunks
    let afterStream := match chunks with
      | [] => s2
      | _ => { s2 with storyContent := finalStreamed base chunks }
    match streamErr with
    | none =>
      let s3 := { afterStream with
          chatHistory := afterStream.chatHistory.filter (fun m => m.id ≠ thinkingId) }
      let s4 := { s3 with isAiResponding := false }
      ⟨[s1, s2] ++ streaming ++ [s3, s4], [s0.storyContent]⟩
    | some msg =>
      let errorContent := "An error occurred while streaming: " ++ msg
      let s3 := { afterStream with
          chatHistory := resolveById afterStream.chatHistory thinkingId errorContent }
      let s4 := { s3 with isAiResponding := false }
      ⟨[s1, s2] ++ streaming ++ [s3, s4], [s0.storyContent]⟩

/-- `handleImproveWriting`: precondition check on the selection, then
delegation to `handleSendMessage` with a hidden prompt. -/
def handleImproveWriting (s : AppState) (sysId userId thinkingId : Nat)
    (result : Except String String) : RunResult :=
  if jsTrim s.selectedText = "" then
    ⟨[addSystemMessage s sysId "Please select some text in the editor to improve."], []⟩
  else
    handleSendMessage s ""
      ("Rewrite the following text to be more vivid and engaging, improving the prose without adding new plot points. Text: \"" ++ s.selectedText ++ "\"")
      userId thinkingId result

/-- `handleLanguageSelect(language)`: silent return on empty selection, else
delegation to `handleSendMessage` with the translation hidden prompt. -/
def handleLanguageSelect (s : AppState) (language : String) (userId thinkingId : Nat)
    (result : Except String String) : RunResult :=
  if jsTrim s.selectedText = "" then ⟨[], []⟩
  else
    handleSendMessage s ""
      ("Translate the following text into " ++ language ++ ". Only return the translated text. Text: \"" ++ s.selectedText ++ "\"")
      userId thinkingId result

/-- `handleTranslate`: advisory turn on empty selection, otherwise the special
`'translate'` system turn that makes the panel render the language picker. -/
def handleTranslate (s : AppState) (sysId : Nat) : RunResult :=
  if jsTrim s.selectedText = "" then
    ⟨[addSystemMessage s sysId "Please select some text to translate."], []⟩
  else
    ⟨[addSystemMessage s sysId "translate"], []⟩

/-- `handleExportPdf`: set the exporting flag only when the document has
non-whitespace content. -/
def handleExportPdf (s : AppState) : AppState :=
  if jsTrim s.storyContent ≠ "" then { s with isExportingPdf := true } else s

/-- `continueWritingStream` in `services/geminiService.ts`: the `contents`
field actually sent to the backend, `storyContent || "Start a new, intriguing story."`. -/
def continueWritingStreamContents (storyContent : String) : String :=
  jsOr storyContent "Start a new, intriguing story."

/-- Concatenation of a chunk list, used to describe `finalStreamed` in closed form. -/
def concatChunks : List String → String
  | [] => ""
  | c :: cs => c ++ concatChunks cs

/-- Discipline of the responding flag along a handler's state trace: true at the
first mutation, true at every state but the last, false at the last. -/
def respondingDiscipline (tr : List AppState) : Prop :=
  (∀ t, tr.head? = some t → t.isAiResponding = true) ∧
  (∀ t ∈ tr.dropLast, t.isAiResponding = true) ∧
  (∀ t, tr.getLast? = some t → t.isAiResponding = false)

lemma finalStreamed_eq (cs : List String) : ∀ cur, finalStreamed cur cs = cur ++ concatChunks cs := by
  induction cs with
  | nil => intro cur; simp [finalStreamed, concatChunks]
  | cons c cs ih =>
    intro cur
    simp only [finalStreamed, concatChunks, ih, String.append_assoc]

lemma chunkStates_isAiResponding (s2 : AppState) (cs : List String) :
    ∀ cur, ∀ t ∈ chunkStates s2 cur cs, t.isAiResponding = s2.isAiResponding := by
  induction cs with
  | nil => intro cur t ht; simp [chunkStates] at ht
  | cons c cs ih =>
    intro cur t ht
    rw [chunkStates] at ht
    rcases List.mem_cons.mp ht with rfl | h
    · rfl
    · exact ih _ t h

lemma resolveById_append (a b : List ChatMessage) (tid : Nat) (c : String) :
    resolveById (a ++ b) tid c = resolveById a tid c ++ resolveById b tid c :=
  List.map_append _ _ _

lemma resolveById_fresh (tid : Nat) (c : String) :
    ∀ h : List ChatMessage, (∀ m ∈ h, m.id ≠ tid) → resolveById h tid c = h := by
  intro h
  induction h with
  | nil => intro _; rfl
  | cons m ms ih =>
    intro hf
    have h1 : m.id ≠ tid := hf m (List.mem_cons_self _ _)
    have h2 : resolveById ms tid c = ms := ih fun x hx => hf x (List.mem_cons_of_mem _ hx)
    simp only [resolveById, List.map_cons, if_neg h1] at h2 ⊢
    rw [h2]

lemma resolveById_self (tid : Nat) (r : Role) (x : String) (b : Bool) (c : String) :
    resolveById [⟨tid, r, x, b⟩] tid c = [⟨tid, r, c, false⟩] := by
  simp [resolveById]

lemma filter_ne_fresh (tid : Nat) (h : List ChatMessage) (hf : ∀ m ∈ h, m.id ≠ tid) :
    h.filter (fun m => m.id ≠ tid) = h := by
  rw [List.filter_eq_self]
  intro m hm
  simpa using hf m hm

lemma respondingDiscipline_shape (s1 s2 s3 s4 : AppState) (mid : List AppState)
    (h1 : s1.isAiResponding = true) (h2 : s2.isAiResponding = true)
    (hmid : ∀ t ∈ mid, t.isAiResponding = true)
    (h3 : s3.isAiResponding = true) (h4 : s4.isAiResponding = false) :
    respondingDiscipline ([s1, s2] ++ mid ++ [s3, s4]) := by
  have hsplit : [s1, s2] ++ mid ++ [s3, s4] = (s1 :: s2 :: (mid ++ [s3])) ++ [s4] := by
    simp
  refine ⟨?_, ?_, ?_⟩
  · intro t ht
    simp only [List.cons_append, List.head?_cons, Option.some.injEq] at ht
    rw [← ht]; exact h1
  · intro t ht
    rw [hsplit, List.dropLast_concat] at ht
    rcases List.mem_cons.mp ht with rfl | ht
    · exact h1
    rcases List.mem_cons.mp ht with rfl | ht
    · exact h2
    rcases List.mem_append.mp ht with ht | ht
    · exact hmid t ht
    · rcases List.mem_singleton.mp ht with rfl
      exact h3
  · intro t ht
    rw [hsplit, List.getLast?_concat, Option.some.injEq] at ht
    rw [← ht]; exact h4

/-- C1 counterexample: on initial DocumentContent "Once upon a time" with
increments [",", " a hero", " rose."], the code yields
"Once upon a time , a hero rose." — the boundary space is inserted before the
comma increment — which differs from the claimed final value. -/
theorem c1_counterexample :
    (handleContinueWriting ⟨false, [], "Once upon a time", "", false⟩ 7
        [",", " a hero", " rose."] none).trace.getLast?.map AppState.storyContent
      = some "Once upon a time , a hero rose."
    ∧ "Once upon a time , a hero rose." ≠ "Once upon a time, a hero rose." := by
  constructor
  · decide
  · decide

/-- C1 (amended): the same run ends with DocumentContent equal to the initial
content, one inserted separating space, then the increments in order:
"Once upon a time , a hero rose.". -/
theorem c1_streaming_final_content :
    (handleContinueWriting ⟨false, [], "Once upon a time", "", false⟩ 7
        [",", " a hero", " rose."] none).trace.getLast?.map AppState.storyContent
      = some ("Once upon a time" ++ " " ++ concatChunks [",", " a hero", " rose."]) := by
  decide

/-- C2 counterexample: with ResponderState already true, `handleSendMessage` is
not a no-op — it still issues a Gateway call and appends two ledger turns. -/
theorem c2_counterexample :
    (⟨true, [], "", "", false⟩ : AppState).isAiResponding = true
    ∧ (handleSendMessage ⟨true, [], "", "", false⟩ "hi" "" 1 2 (Except.ok "r")).sentPrompts
        = ["hi"]
    ∧ (handleSendMessage ⟨true, [], "", "", false⟩ "hi" "" 1 2 (Except.ok "r")).trace.getLast?.map
          (fun t => t.chatHistory.length)
        = some 2 := by
  refine ⟨rfl, by decide, by decide⟩

/-- C2 (amended): only the streaming continuation is guarded by ResponderState —
when it is already true, `handleContinueWriting` returns with an empty trace and
no Gateway call (silent no-op); `handleSendMessage` performs no such check. -/
theorem c2_continue_guard (s : AppState) (tid : Nat) (chunks : List String)
    (err : Option String) (h : s.isAiResponding = true) :
    handleContinueWriting s tid chunks err = ⟨[], []⟩ := by
  simp [handleContinueWriting, h]

/-- Witness for C2's amended theorem at a concrete busy state. -/
theorem c2_witness :
    (⟨true, [⟨0, Role.system, "welcome", false⟩], "story", "", false⟩ : AppState).isAiResponding = true
    ∧ handleContinueWriting ⟨true, [⟨0, Role.system, "welcome", false⟩], "story", "", false⟩ 5
        ["x"] none = ⟨[], []⟩ :=
  ⟨rfl, c2_continue_guard _ 5 ["x"] none rfl⟩

/-- C7: with a whitespace-only SelectionSnapshot, Improve and Translate start no
orchestration and append exactly one system advisory turn each. -/
theorem c7_empty_selection_advisory (s : AppState) (sysId userId thinkingId : Nat)
    (result : Except String String) (hsel : jsTrim s.selectedText = "") :
    handleImproveWriting s sysId userId thinkingId result
      = ⟨[{ s with chatHistory := s.chatHistory
            ++ [⟨sysId, Role.system, "Please select some text in the editor to improve.", false⟩] }], []⟩
    ∧ handleTranslate s sysId
      = ⟨[{ s with chatHistory := s.chatHistory
            ++ [⟨sysId, Role.system, "Please select some text to translate.", false⟩] }], []⟩ := by
  constructor
  · simp [handleImproveWriting, addSystemMessage, hsel]
  · simp [handleTranslate, addSystemMessage, hsel]

/-- Witness for C7 at a concrete whitespace selection. -/
theorem c7_witness :
    jsTrim (⟨false, [], "tale", "  ", false⟩ : AppState).selectedText = ""
    ∧ handleImproveWriting ⟨false, [], "tale", "  ", false⟩ 3 4 5 (Except.ok "r")
      = ⟨[⟨false, [⟨3, Role.system, "Please select some text in the editor to improve.", false⟩],
            "tale", "  ", false⟩], []⟩ :=
  ⟨by decide, by
    have h := (c7_empty_selection_advisory ⟨false, [], "tale", "  ", false⟩ 3 4 5
      (Except.ok "r") (by decide)).1
    simpa using h⟩

/-- C8: export requested while DocumentContent is whitespace-only changes
nothing at all — the state (exporting flag included) is returned unchanged. -/
theorem c8_export_empty_noop (s : AppState) (h : jsTrim s.storyContent = "") :
    handleExportPdf s = s := by
  simp [handleExportPdf, h]

/-- Witness for C8 at a concrete whitespace-only document. -/
theorem c8_witness :
    jsTrim (⟨false, [], " ", "", false⟩ : AppState).storyContent = ""
    ∧ handleExportPdf ⟨false, [], " ", "", false⟩ = ⟨false, [], " ", "", false⟩ :=
  ⟨by decide, c8_export_empty_noop _ (by decide)⟩

/-- C9: the streaming Gateway substitutes the generic story-opening instruction
for an empty documentText, sends the documentText itself otherwise, and never
sends an empty prompt. -/
theorem c9_stream_prompt_nonempty (doc : String) :
    continueWritingStreamContents "" = "Start a new, intriguing story."
    ∧ (doc ≠ "" → continueWritingStreamContents doc = doc)
    ∧ continueWritingStreamContents doc ≠ "" := by
  refine ⟨rfl, ?_, ?_⟩
  · intro hd
    simp [continueWritingStreamContents, jsOr, hd]
  · by_cases hd : doc = ""
    · subst hd; decide
    · simp [continueWritingStreamContents, jsOr, hd]

/-- Witness for C9 at a concrete non-empty document. -/
theorem c9_witness :
    "abc" ≠ "" ∧ continueWritingStreamContents "abc" = "abc" :=
  ⟨by decide, (c9_stream_prompt_nonempty "abc").2.1 (by decide)⟩

/-- C10: choosing a language while the selection is whitespace-only is a
complete no-op — empty trace (no state change, no advisory turn) and no
Gateway call. -/
theorem c10_language_select_noop (s : AppState) (language : String)
    (userId thinkingId : Nat) (result : Except String String)
    (hsel : jsTrim s.selectedText = "") :
    handleLanguageSelect s language userId thinkingId result = ⟨[], []⟩ := by
  simp [handleLanguageSelect, hsel]

/-- Witness for C10 at a concrete whitespace selection. -/
theorem c10_witness :
    jsTrim (⟨false, [], "tale", " ", false⟩ : AppState).selectedText = ""
    ∧ handleLanguageSelect ⟨false, [], "tale", " ", false⟩ "French" 1 2 (Except.ok "r")
      = ⟨[], []⟩ :=
  ⟨by decide, c10_language_select_noop _ "French" 1 2 (Except.ok "r") (by decide)⟩

lemma getLast_trace_shape (a b c d : AppState) (mid : List AppState) :
    ([a, b] ++ mid ++ [c, d]).getLast? = some d := by
  have h : [a, b] ++ mid ++ [c, d] = (a :: b :: (mid ++ [c])) ++ [d] := by simp
  rw [h, List.getLast?_concat]

/-- C3: along every send-message and continue-writing run, the responding flag
is true at the first mutation, true at every trace state but the last, and
false at the last — never left true after the orchestration terminates. -/
theorem c3_responder_discipline (s : AppState) (prompt hidden : String)
    (userId thinkingId : Nat) (result : Except String String)
    (chunks : List String) (streamErr : Option String) :
    respondingDiscipline (handleSendMessage s prompt hidden userId thinkingId result).trace
    ∧ respondingDiscipline (handleContinueWriting s thinkingId chunks streamErr).trace := by
  constructor
  · cases result with
    | ok text =>
      simp only [handleSendMessage]
      exact respondingDiscipline_shape _ _ _ _ []
        rfl rfl (fun t ht => absurd ht (List.not_mem_nil t)) rfl rfl
    | error msg =>
      simp only [handleSendMessage]
      exact respondingDiscipline_shape _ _ _ _ []
        rfl rfl (fun t ht => absurd ht (List.not_mem_nil t)) rfl rfl
  · cases hg : s.isAiResponding with
    | true =>
      simp [handleContinueWriting, hg, respondingDiscipline]
    | false =>
      cases streamErr with
      | none =>
        cases chunks with
        | nil =>
          simp only [handleContinueWriting, hg, Bool.false_eq_true, if_false]
          exact respondingDiscipline_shape _ _ _ _ _
            rfl rfl (fun t ht => (chunkStates_isAiResponding _ _ _ t ht).trans rfl) rfl rfl
        | cons c cs =>
          simp only [handleContinueWriting, hg, Bool.false_eq_true, if_false]
          exact respondingDiscipline_shape _ _ _ _ _
            rfl rfl (fun t ht => (chunkStates_isAiResponding _ _ _ t ht).trans rfl) rfl rfl
      | some msg =>
        cases chunks with
        | nil =>
          simp only [handleContinueWriting, hg, Bool.false_eq_true, if_false]
          exact respondingDiscipline_shape _ _ _ _ _
            rfl rfl (fun t ht => (chunkStates_isAiResponding _ _ _ t ht).trans rfl) rfl rfl
        | cons c cs =>
          simp only [handleContinueWriting, hg, Bool.false_eq_true, if_false]
          exact respondingDiscipline_shape _ _ _ _ _
            rfl rfl (fun t ht => (chunkStates_isAiResponding _ _ _ t ht).trans rfl) rfl rfl

/-- Witness for C3: a concrete successful send-message run ends with the
responding flag cleared. -/
theorem c3_witness :
    (handleSendMessage ⟨false, [], "", "", false⟩ "hi" "" 1 2 (Except.ok "r")).trace.getLast?
      = some ⟨false, [⟨1, Role.user, "hi", false⟩, ⟨2, Role.model, "r", false⟩], "", "", false⟩
    ∧ (⟨false, [⟨1, Role.user, "hi", false⟩, ⟨2, Role.model, "r", false⟩], "", "", false⟩
        : AppState).isAiResponding = false :=
  ⟨by decide,
    (c3_responder_discipline ⟨false, [], "", "", false⟩ "hi" "" 1 2
      (Except.ok "r") [] none).1.2.2 _ (by decide)⟩

/-- C4: when the Gateway converse call fails, the provisional assistant turn is
resolved in place — same id, same (final) transcript position, all earlier
turns untouched — to `"An error occurred: " ++ msg`, with the thinking flag
cleared; the handler returns normally with the responding flag reset. -/
theorem c4_converse_failure_resolution (s : AppState) (prompt hidden : String)
    (userId thinkingId : Nat) (msg : String)
    (hfresh : ∀ m ∈ s.chatHistory, m.id ≠ thinkingId) (hid : userId ≠ thinkingId) :
    (handleSendMessage s prompt hidden userId thinkingId (Except.error msg)).trace.getLast?
      = some { s with
          isAiResponding := false,
          chatHistory := s.chatHistory
            ++ (if prompt ≠ "" then [⟨userId, Role.user, prompt, false⟩] else [])
            ++ [⟨thinkingId, Role.model, "An error occurred: " ++ msg, false⟩] } := by
  have hU : resolveById (if prompt ≠ "" then [⟨userId, Role.user, prompt, false⟩] else [])
      thinkingId ("An error occurred: " ++ msg)
      = (if prompt ≠ "" then [⟨userId, Role.user, prompt, false⟩] else []) := by
    split
    · simp [resolveById, hid]
    · rfl
  simp only [handleSendMessage]
  have h4 : ∀ a b c d : AppState, ([a, b, c, d]).getLast? = some d := fun _ _ _ _ => rfl
  rw [h4]
  rw [resolveById_append, resolveById_append, resolveById_fresh _ _ _ hfresh, hU,
    resolveById_self]

/-- Witness for C4: concrete failing converse call with fresh ids. -/
theorem c4_witness :
    (∀ m ∈ (⟨false, [⟨0, Role.system, "welcome", false⟩], "", "", false⟩
        : AppState).chatHistory, m.id ≠ 2)
    ∧ (handleSendMessage ⟨false, [⟨0, Role.system, "welcome", false⟩], "", "", false⟩
          "hi" "" 1 2 (Except.error "boom")).trace.getLast?
        = some ⟨false,
            [⟨0, Role.system, "welcome", false⟩, ⟨1, Role.user, "hi", false⟩,
             ⟨2, Role.model, "An error occurred: boom", false⟩], "", "", false⟩ :=
  ⟨by decide, by
    have h := c4_converse_failure_resolution
      ⟨false, [⟨0, Role.system, "welcome", false⟩], "", "", false⟩ "hi" "" 1 2 "boom"
      (by decide) (by decide)
    simpa using h⟩

/-- C5: on a mid-stream failure the provisional placeholder is resolved in place
to the streaming error description while every increment already appended to
DocumentContent is kept (base content, one boundary space when due, then all
delivered chunks) — no rollback — and the responding flag is reset. -/
theorem c5_midstream_failure_keeps_content (s : AppState) (tid : Nat)
    (chunks : List String) (msg : String)
    (hg : s.isAiResponding = false) (hfresh : ∀ m ∈ s.chatHistory, m.id ≠ tid) :
    (handleContinueWriting s tid chunks (some msg)).trace.getLast?
      = some { s with
          isAiResponding := false,
          storyContent := if chunks = [] then s.storyContent
            else boundaryBase s.storyContent ++ concatChunks chunks,
          chatHistory := s.chatHistory
            ++ [⟨tid, Role.model, "An error occurred while streaming: " ++ msg, false⟩] } := by
  cases chunks with
  | nil =>
    simp only [handleContinueWriting, hg, Bool.false_eq_true, if_false]
    rw [getLast_trace_shape]
    rw [resolveById_append, resolveById_fresh _ _ _ hfresh, resolveById_self]
    simp
  | cons c cs =>
    simp only [handleContinueWriting, hg, Bool.false_eq_true, if_false]
    rw [getLast_trace_shape]
    rw [resolveById_append, resolveById_fresh _ _ _ hfresh, resolveById_self]
    simp [finalStreamed_eq]

/-- Witness for C5: concrete mid-stream failure after two delivered chunks. -/
theorem c5_witness :
    (⟨false, [], "Once", "", false⟩ : AppState).isAiResponding = false
    ∧ (handleContinueWriting ⟨false, [], "Once", "", false⟩ 9 ["upon", " a time"]
          (some "cut")).trace.getLast?
        = some ⟨false,
            [⟨9, Role.model, "An error occurred while streaming: cut", false⟩],
            "Once upon a time", "", false⟩ :=
  ⟨rfl, by
    have h := c5_midstream_failure_keeps_content ⟨false, [], "Once", "", false⟩ 9
      ["upon", " a time"] "cut" rfl (by decide)
    simpa using h⟩

/-- C6: when the stream completes successfully the provisional placeholder is
discarded — the final ledger equals the pre-call ledger, so it contains no turn
with the placeholder id, and every other turn is unchanged. -/
theorem c6_success_discards_placeholder (s : AppState) (tid : Nat)
    (chunks : List String)
    (hg : s.isAiResponding = false) (hfresh : ∀ m ∈ s.chatHistory, m.id ≠ tid) :
    (handleContinueWriting s tid chunks none).trace.getLast?
      = some { s with
          isAiResponding := false,
          storyContent := if chunks = [] then s.storyContent
            else boundaryBase s.storyContent ++ concatChunks chunks }
    ∧ ∀ m ∈ ({ s with
          isAiResponding := false,
          storyContent := if chunks = [] then s.storyContent
            else boundaryBase s.storyContent ++ concatChunks chunks }
        : AppState).chatHistory, m.id ≠ tid := by
  refine ⟨?_, hfresh⟩
  cases chunks with
  | nil =>
    simp only [handleContinueWriting, hg, Bool.false_eq_true, if_false]
    rw [getLast_trace_shape]
    rw [List.filter_append, filter_ne_fresh _ _ hfresh]
    simp
  | cons c cs =>
    simp only [handleContinueWriting, hg, Bool.false_eq_true, if_false]
    rw [getLast_trace_shape]
    rw [List.filter_append, filter_ne_fresh _ _ hfresh]
    simp [finalStreamed_eq]

/-- Witness for C6: concrete successful continuation run. -/
theorem c6_witness :
    (⟨false, [⟨0, Role.system, "welcome", false⟩], "Once", "", false⟩
        : AppState).isAiResponding = false
    ∧ (handleContinueWriting ⟨false, [⟨0, Role.system, "welcome", false⟩], "Once", "", false⟩
          9 ["upon", " a time"] none).trace.getLast?
        = some ⟨false, [⟨0, Role.system, "welcome", false⟩], "Once upon a time", "", false⟩ :=
  ⟨rfl, by
    have h := (c6_success_discards_placeholder
      ⟨false, [⟨0, Role.system, "welcome", false⟩], "Once", "", false⟩ 9
      ["upon", " a time"] rfl (by decide)).1
    simpa using h⟩
